import Mathlib

/-!
Verification development for the `hello_rust` peer-to-peer node
(`src/src/main.rs`).  The program composes a libp2p transport stack
(TCP + noise authentication + yamux multiplexing), combines three
protocol handlers (identify, ping, mdns) into one `MyBehaviour`, and
drives an event loop over the resulting swarm's event stream.

The embedding below translates the program into executable Lean
definitions.  Parts implemented by the libp2p dependency (key-to-PeerId
derivation, the noise authentication upgrade, the derived behaviour's
poll order, the identify record) are modelled from the specification,
and are marked `Modelled from the spec:` in their doc comments.
-/

/-- An Ed25519 public key: 32 raw key bytes (each < 256). -/
structure PublicKey where
  bytes : List Nat
  deriving DecidableEq, Repr

/-- An Ed25519 keypair as produced by `Keypair::generate_ed25519`.
Only the public half is observable in the program. -/
structure Keypair where
  secret : List Nat
  public : PublicKey
  deriving DecidableEq, Repr

/-- Modelled from the spec: `Keypair::generate_ed25519` draws fresh key
material from the process randomness source (spec §4.1, "a freshly
generated asymmetric keypair over a standard signature scheme").  The
randomness drawn is made explicit as a `seed`, so generation is a pure
function of the entropy it consumed. -/
def Keypair.generate_ed25519 (seed : Nat) : Keypair :=
  { secret := (List.range 32).map (fun i => (seed + 7 * i) % 256)
    public := ⟨(List.range 32).map (fun i => (seed + 13 * i + 1) % 256)⟩ }

/-- A libp2p peer identifier: the multihash bytes derived from a public key. -/
structure PeerId where
  hash : List Nat
  deriving DecidableEq, Repr

/-- Modelled from the spec: the protobuf envelope libp2p wraps a public key
in before hashing (key type tag followed by the key bytes). -/
def protobufEncodePublicKey (pk : PublicKey) : List Nat :=
  [0x08, 0x01, 0x12, 0x20] ++ pk.bytes

/-- Identity multihash: code 0x00, then the length, then the data itself. -/
def identityMultihash (data : List Nat) : List Nat :=
  0x00 :: data.length :: data

/-- Modelled from the spec: `PeerId::from(PublicKey)` is implemented by
the libp2p dependency; spec §4.1 requires "a NodeId deterministically
derived from the public key via a fixed hashing/encoding rule".  For
small (Ed25519) keys libp2p uses the identity multihash over the
protobuf-encoded key. -/
def PeerId.fromPublicKey (pk : PublicKey) : PeerId :=
  ⟨identityMultihash (protobufEncodePublicKey pk)⟩

/-- A multiaddr of the shape `/ip4/A.B.C.D/tcp/PORT`, the only shape the
program uses; anything else is kept opaque. -/
inductive Multiaddr where
  | ip4tcp (a b c d : Nat) (port : Nat)
  | otherAddr (s : String)
  deriving DecidableEq, Repr

/-- Split a character list on a separator (the pieces between
occurrences of `c`, in order). -/
def splitOnChar (c : Char) : List Char → List (List Char)
  | [] => [[]]
  | x :: xs =>
    let rest := splitOnChar c xs
    if x = c then [] :: rest
    else match rest with
      | r :: rs => (x :: r) :: rs
      | [] => [[x]]

/-- The numeric value of a decimal digit character, if it is one. -/
def charDigit (ch : Char) : Option Nat :=
  if 48 ≤ ch.toNat ∧ ch.toNat ≤ 57 then some (ch.toNat - 48) else none

/-- Parse a non-empty all-digit character list as a decimal number. -/
def parseNatChars (l : List Char) : Option Nat :=
  match l with
  | [] => none
  | _ => l.foldl (fun acc ch => acc.bind (fun n => (charDigit ch).map (fun d => 10 * n + d))) (some 0)

/-- Parse the dotted-quad part of an ip4 multiaddr component. -/
def parseIp4 (l : List Char) : Option (Nat × Nat × Nat × Nat) :=
  match (splitOnChar '.' l).mapM parseNatChars with
  | some [a, b, c, d] => some (a, b, c, d)
  | _ => none

/-- `"...".parse()` on a multiaddr string, restricted to the
`/ip4/A.B.C.D/tcp/PORT` shape the program feeds it. -/
def Multiaddr.parse (s : String) : Option Multiaddr :=
  match splitOnChar '/' s.toList with
  | [[], p1, ip, p2, port] =>
    if p1 = "ip4".toList ∧ p2 = "tcp".toList then
      match parseIp4 ip, parseNatChars port with
      | some (a, b, c, d), some p => some (.ip4tcp a b c d p)
      | _, _ => none
    else none
  | _ => none

/-- A multiaddr is a wildcard specification when it names all local
interfaces (ip 0.0.0.0) and asks for an ephemeral port (port 0). -/
def Multiaddr.isWildcard : Multiaddr → Bool
  | .ip4tcp a b c d port => a = 0 && b = 0 && c = 0 && d = 0 && port = 0
  | .otherAddr _ => false

/-- The noise authentication configuration, built from the node's keypair
(`noise::Config::new(&local_key)`). -/
structure NoiseConfig where
  key : Keypair
  deriving DecidableEq, Repr

/-- `noise::Config::new` is fallible in the source (it signs the noise
static keypair with the identity key and returns `Result`).  Whether the
signing step succeeds is an effect of the crypto backend; it is made
explicit as the `signingOk` oracle. -/
def NoiseConfig.new (signingOk : Bool) (k : Keypair) : Except String NoiseConfig :=
  if signingOk then .ok ⟨k⟩ else .error ("signing libp2p-noise static keypair failed")

/-- One stage of the transport upgrade pipeline. -/
inductive TransportStage where
  | tcp
  | noiseAuth (key : Keypair)
  | yamuxMux
  deriving DecidableEq, Repr

/-- The upgrade protocol version selected before authentication
(`libp2p::core::upgrade::Version::V1Lazy`). -/
inductive UpgradeVersion where
  | v1
  | v1Lazy
  deriving DecidableEq, Repr

/-- A transport under construction: the ordered list of upgrade stages
applied so far (earliest, i.e. lowest, stage first) and the negotiated
upgrade version once `.upgrade(..)` has been called. -/
structure TransportBuilder where
  stages : List TransportStage
  version : Option UpgradeVersion
  deriving DecidableEq, Repr

/-- `tcp::async_io::Transport::new(tcp::Config::default())`: the raw TCP
byte-stream transport, the base of the pipeline. -/
def tcpTransportNew : TransportBuilder :=
  { stages := [.tcp], version := none }

/-- `.upgrade(version)`: records the multistream-select version used for
the upgrades that follow; adds no stage of its own. -/
def TransportBuilder.upgrade (t : TransportBuilder) (v : UpgradeVersion) : TransportBuilder :=
  { t with version := some v }

/-- `.authenticate(auth_config)`: applies the noise authenticated
encryption upgrade on top of the stages built so far. -/
def TransportBuilder.authenticate (t : TransportBuilder) (cfg : NoiseConfig) : TransportBuilder :=
  { t with stages := t.stages ++ [.noiseAuth cfg.key] }

/-- `.multiplex(yamux::Config::default())`: applies the yamux
multiplexing upgrade on top of the stages built so far. -/
def TransportBuilder.multiplex (t : TransportBuilder) : TransportBuilder :=
  { t with stages := t.stages ++ [.yamuxMux] }

/-- `.boxed()`: erases the concrete type; the pipeline is unchanged. -/
def TransportBuilder.boxed (t : TransportBuilder) : TransportBuilder := t

/-- The transport built in `main` (src/src/main.rs lines 77-81):
TCP, upgraded with V1Lazy, authenticated with noise, multiplexed with
yamux, then boxed. -/
def buildTransport (auth_config : NoiseConfig) : TransportBuilder :=
  (((tcpTransportNew.upgrade .v1Lazy).authenticate auth_config).multiplex).boxed

/-! ## Noise authentication outcome (spec-modelled)

The noise handshake itself lives in the `libp2p-noise` dependency; the
program only installs it via `.authenticate`.  Its contract is modelled
from spec §4.2 and §8. -/

/-- What the remote side of a handshake achieved: either it proved
possession of some public key, or the handshake failed (handshake error
or malformed handshake message). -/
inductive HandshakeResult where
  | proven (key : PublicKey)
  | failed
  deriving DecidableEq, Repr

/-- Errors a transport upgrade can fail with (spec §7 taxonomy). -/
inductive UpgradeError where
  | authenticationError
  | multiplexError
  deriving DecidableEq, Repr

/-- An established connection: the remote identity recorded for it. -/
structure Connection where
  remoteIdentity : PeerId
  deriving DecidableEq, Repr

/-- Modelled from the spec: the noise authentication stage (§4.2).  A
failed handshake yields `AuthenticationError`; a successful handshake
records the identity derived from the key the peer proved; when the dial
expected a particular peer, a proven identity that does not match the
expectation is an `AuthenticationError` as well. -/
def noiseAuthenticate (hs : HandshakeResult) (expected : Option PeerId) :
    Except UpgradeError Connection :=
  match hs with
  | .failed => .error .authenticationError
  | .proven key =>
    let remote := PeerId.fromPublicKey key
    match expected with
    | none => .ok ⟨remote⟩
    | some pid => if pid = remote then .ok ⟨remote⟩ else .error .authenticationError

/-- Registering the result of a connection attempt: only a successful
upgrade adds a connection; a failed one leaves the registry unchanged. -/
def registerUpgrade (r : Except UpgradeError Connection) (conns : List Connection) :
    List Connection :=
  match r with
  | .ok c => conns ++ [c]
  | .error _ => conns

/-! ## Identify configuration -/

/-- The configuration handed to `identify::Behaviour::new`
(`identify::Config::new(version_string, public_key)`). -/
structure IdentifyConfig where
  versionString : String
  localPublicKey : PublicKey
  deriving DecidableEq, Repr

/-- `identify::Config::new` (src/src/main.rs lines 86-89). -/
def IdentifyConfig.new (s : String) (pk : PublicKey) : IdentifyConfig :=
  { versionString := s, localPublicKey := pk }

/-- The metadata record the identify handler sends to a peer
(spec §3, "Identification Record": agent version string and public key;
listen addresses are omitted here as they are connection-dependent). -/
structure IdentifyInfo where
  agentVersion : String
  publicKey : PublicKey
  deriving DecidableEq, Repr

/-- Modelled from the spec: the identify behaviour (a libp2p dependency)
offers every peer the record built from its configuration — the
configured version string as the agent string and the configured public
key (spec §4.5, §3 "Identification Record"). -/
def offeredIdentifyInfo (cfg : IdentifyConfig) : IdentifyInfo :=
  { agentVersion := cfg.versionString, publicKey := cfg.localPublicKey }

/-! ## Events and the behaviour -/

/-- Payload of a ping (liveness) event: round-trip time in milliseconds
or a failure description. -/
inductive PingResult where
  | rtt (millis : Nat)
  | failure (msg : String)
  deriving DecidableEq, Repr

/-- A `ping::Event`: which peer was probed and the outcome. -/
structure PingEvent where
  peer : PeerId
  result : PingResult
  deriving DecidableEq, Repr

/-- An `identify::Event`. -/
inductive IdentifyEvent where
  | received (peer : PeerId) (info : IdentifyInfo)
  | sent (peer : PeerId)
  | pushed (peer : PeerId)
  | error (peer : PeerId) (msg : String)
  deriving DecidableEq, Repr

/-- An `mdns::Event`: peers discovered, or previously discovered records
expired.  `Discovered` carries a list of (peer id, address) pairs. -/
inductive MdnsEvent where
  | discovered (peers : List (PeerId × Multiaddr))
  | expired (peers : List (PeerId × Multiaddr))
  deriving DecidableEq, Repr

/-- `MyBehaviourEvent` (src/src/main.rs lines 38-42): the tagged union of
the three handlers' events. -/
inductive MyBehaviourEvent where
  | identify (e : IdentifyEvent)
  | ping (e : PingEvent)
  | mdns (e : MdnsEvent)
  deriving DecidableEq, Repr

/-- `MyBehaviourEvent::from` for identify events (src lines 45-49). -/
def MyBehaviourEvent.fromIdentify (e : IdentifyEvent) : MyBehaviourEvent := .identify e

/-- `MyBehaviourEvent::from` for ping events (src lines 51-55). -/
def MyBehaviourEvent.fromPing (e : PingEvent) : MyBehaviourEvent := .ping e

/-- `MyBehaviourEvent::from` for mdns events (src lines 57-61). -/
def MyBehaviourEvent.fromMdns (e : MdnsEvent) : MyBehaviourEvent := .mdns e

/-- A `SwarmEvent`: either a behaviour event or one of the swarm-level
events.  Besides `NewListenAddr`, the variants the program's `_` arm can
receive are listed explicitly. -/
inductive SwarmEvent where
  | newListenAddr (address : Multiaddr)
  | behaviour (e : MyBehaviourEvent)
  | connectionEstablished (peer : PeerId)
  | connectionClosed (peer : PeerId)
  | incomingConnection (local_addr : Multiaddr)
  | incomingConnectionError (local_addr : Multiaddr)
  | outgoingConnectionError (peer : Option PeerId)
  | expiredListenAddr (address : Multiaddr)
  | listenerClosed (address : Multiaddr)
  | listenerError (msg : String)
  | dialing (peer : Option PeerId)
  deriving DecidableEq, Repr

/-! ## The dispatcher (handler poll order) -/

/-- The three protocol handlers composed into `MyBehaviour`. -/
inductive Handler where
  | identify
  | ping
  | mdns
  deriving DecidableEq, Repr

/-- The field declaration order of `MyBehaviour`
(src/src/main.rs lines 29-33): `identify`, then `ping`, then `mdns`. -/
def myBehaviourFieldOrder : List Handler :=
  [.identify, .ping, .mdns]

/-- Modelled from the spec: the derived `NetworkBehaviour`
implementation polls the handlers by iterating the fixed handler set in
field declaration order and surfaces the first ready event
(spec §4.3, "ties are broken by iteration order over the fixed handler
set"). -/
def dispatchFirstReady (ready : Handler → Option MyBehaviourEvent) :
    Option MyBehaviourEvent :=
  myBehaviourFieldOrder.findSome? ready

/-! ## The event loop -/

/-- One observable reaction of the event loop (a `println!` in the
source). -/
inductive Output where
  | listeningOn (address : Multiaddr)
  | discoveredPeer (peer : PeerId) (addr : Multiaddr)
  | identifyEvent (e : IdentifyEvent)
  | pingEvent (e : PingEvent)
  deriving DecidableEq, Repr

/-- Whether the loop body continues to the next iteration or leaves the
loop. -/
inductive LoopControl where
  | next
  | halt
  deriving DecidableEq, Repr

/-- The body of the main event loop (src/src/main.rs lines 113-136): the
match over the received `SwarmEvent`.  Each arm reports its reactions
and whether it leaves the loop; no arm in the source breaks, returns or
propagates an error, so every arm yields `.next`. -/
def loopBody : SwarmEvent → LoopControl × List Output
  | .newListenAddr address => (.next, [.listeningOn address])
  | .behaviour (.mdns (.discovered peers)) =>
    (.next, peers.map (fun pa => .discoveredPeer pa.1 pa.2))
  | .behaviour (.identify e) => (.next, [.identifyEvent e])
  | .behaviour (.ping e) => (.next, [.pingEvent e])
  | _ => (.next, [])

/-- Which arm of the event-loop match an event is consumed by. -/
inductive MatchArm where
  | newListenAddrArm
  | mdnsDiscoveredArm
  | identifyArm
  | pingArm
  | otherArm
  deriving DecidableEq, Repr

/-- The arm selection of the event-loop match, with the same patterns in
the same order as the source. -/
def matchArmOf : SwarmEvent → MatchArm
  | .newListenAddr _ => .newListenAddrArm
  | .behaviour (.mdns (.discovered _)) => .mdnsDiscoveredArm
  | .behaviour (.identify _) => .identifyArm
  | .behaviour (.ping _) => .pingArm
  | _ => .otherArm

/-- Run the event loop over a (finite prefix of the) event stream,
collecting the outputs; the loop stops early only if some body yields
`.halt`. -/
def runLoop : List SwarmEvent → List Output
  | [] => []
  | e :: rest =>
    match loopBody e with
    | (.next, out) => out ++ runLoop rest
    | (.halt, out) => out

/-! ## The startup sequence of `main` -/

/-- The errors `main` can propagate with `?` during startup. -/
inductive StartupError where
  | mdnsCreation
  | addrParse
  | listenBind
  deriving DecidableEq, Repr

/-- How `main` ends during startup: it reaches the event loop, the
process panics (an `.expect` fired), or `main` returns `Err` (a `?`
propagated). -/
inductive StartupOutcome where
  | started
  | panicked (msg : String)
  | failed (e : StartupError)
  deriving DecidableEq, Repr

/-- What startup did: how it ended, and every address that was passed to
`swarm.listen_on`. -/
structure StartupTrace where
  outcome : StartupOutcome
  listenCalls : List Multiaddr
  deriving DecidableEq, Repr

/-- `main`'s key material: `Keypair::generate_ed25519()` (src line 66),
a pure function of the entropy drawn. -/
def localKeyOf (seed : Nat) : Keypair :=
  Keypair.generate_ed25519 seed

/-- `main`'s peer id: `PeerId::from(local_key.public())` (src line 67). -/
def localPeerIdOf (seed : Nat) : PeerId :=
  PeerId.fromPublicKey (localKeyOf seed).public

/-- `main`'s identify configuration (src lines 86-89):
`identify::Config::new("rust-p2p-example/1.0.0".to_string(), local_key.public())`. -/
def mainIdentifyConfig (seed : Nat) : IdentifyConfig :=
  IdentifyConfig.new ("rust-p2p-example/1.0.0") (localKeyOf seed).public

/-- The transport `main` builds (src lines 77-81) on the success path of
`noise::Config::new(&local_key).expect(..)`, which yields the config
holding the local keypair. -/
def mainTransport (seed : Nat) : TransportBuilder :=
  buildTransport ⟨localKeyOf seed⟩

/-- The startup sequence of `main` (src/src/main.rs lines 63-110), step
by step in source order.  Effects of the environment are explicit:
`signingOk` is whether signing the noise static keypair succeeds (its
failure hits the `.expect`, a panic), `mdnsOk` whether
`mdns::async_io::Behaviour::new` succeeds (its failure propagates via
`?`), `listenOk` whether the listen socket binds (failure propagates via
`?`), and `seed` the entropy drawn by key generation.  Key generation
itself (`Keypair::generate_ed25519`) is infallible in the source. -/
def mainStartup (signingOk mdnsOk listenOk : Bool) (seed : Nat) : StartupTrace :=
  let local_key := localKeyOf seed
  match NoiseConfig.new signingOk local_key with
  | .error msg => { outcome := .panicked msg, listenCalls := [] }
  | .ok auth_config =>
    let _transport := buildTransport auth_config
    if mdnsOk then
      match Multiaddr.parse ("/ip4/0.0.0.0/tcp/0") with
      | none => { outcome := .failed .addrParse, listenCalls := [] }
      | some addr =>
        if listenOk then { outcome := .started, listenCalls := [addr] }
        else { outcome := .failed .listenBind, listenCalls := [addr] }
    else { outcome := .failed .mdnsCreation, listenCalls := [] }

/-! ## Spec-side definitions used for comparison -/

/-- The four event kinds the spec says the event loop reacts to, written
from the claim's words: a new listening address, an mdns `Discovered`
event, an identify event, and a ping event. -/
def specSpecialEvent (e : SwarmEvent) : Prop :=
  (∃ a, e = SwarmEvent.newListenAddr a) ∨
  (∃ ps, e = SwarmEvent.behaviour (MyBehaviourEvent.mdns (MdnsEvent.discovered ps))) ∨
  (∃ i, e = SwarmEvent.behaviour (MyBehaviourEvent.identify i)) ∨
  (∃ p, e = SwarmEvent.behaviour (MyBehaviourEvent.ping p))

/-- A poll cycle in which both the identify handler and the mdns handler
have a ready event (the ping handler does not). -/
def bothReady : Handler → Option MyBehaviourEvent
  | .identify => some (.identify (.sent ⟨[1]⟩))
  | .ping => none
  | .mdns => some (.mdns (.discovered []))

/-! ## Helper lemmas -/

/-- The listen address literal of `main` parses to the all-interfaces,
port-0 multiaddr. -/
theorem parse_listen_addr :
    Multiaddr.parse ("/ip4/0.0.0.0/tcp/0") = some (Multiaddr.ip4tcp 0 0 0 0 0) := by
  decide

/-- Every arm of the event-loop match continues the loop: no arm of the
source match breaks, returns or propagates an error. -/
theorem loopBody_control_next (e : SwarmEvent) : (loopBody e).1 = LoopControl.next := by
  cases e <;> try rfl
  rename_i be
  cases be <;> try rfl
  rename_i me
  cases me <;> rfl

/-! ## Claim theorems -/

/-- C1: the transport stack is built by composing exactly three upgrade
stages in fixed order — raw TCP, then the noise authenticated-encryption
upgrade carrying the node's keypair, then the yamux multiplexing
upgrade — each applied on top of the previous one, so authentication
precedes multiplexing in the pipeline. -/
theorem c1_transport_three_stages_in_order (cfg : NoiseConfig) (seed : Nat) :
    (buildTransport cfg).stages =
      [TransportStage.tcp, TransportStage.noiseAuth cfg.key, TransportStage.yamuxMux] ∧
    (mainTransport seed).stages =
      [TransportStage.tcp, TransportStage.noiseAuth (localKeyOf seed), TransportStage.yamuxMux] :=
  ⟨rfl, rfl⟩

/-- C2: the event loop reacts specially to exactly four event kinds
(new listening address, mdns Discovered, identify, ping) — its match
takes a non-default arm exactly on those kinds — and every other event
is consumed by the default arm with no reaction and the loop
continuing. -/
theorem c2_loop_reacts_to_exactly_four_kinds (e : SwarmEvent) :
    (matchArmOf e ≠ MatchArm.otherArm ↔ specSpecialEvent e) ∧
    (matchArmOf e = MatchArm.otherArm → loopBody e = (LoopControl.next, [])) := by
  constructor
  · cases e with
    | newListenAddr a => simp [matchArmOf, specSpecialEvent]
    | behaviour be =>
      cases be with
      | identify i => simp [matchArmOf, specSpecialEvent]
      | ping p => simp [matchArmOf, specSpecialEvent]
      | mdns me =>
        cases me with
        | discovered ps => simp [matchArmOf, specSpecialEvent]
        | expired ps => simp [matchArmOf, specSpecialEvent]
    | connectionEstablished p => simp [matchArmOf, specSpecialEvent]
    | connectionClosed p => simp [matchArmOf, specSpecialEvent]
    | incomingConnection a => simp [matchArmOf, specSpecialEvent]
    | incomingConnectionError a => simp [matchArmOf, specSpecialEvent]
    | outgoingConnectionError p => simp [matchArmOf, specSpecialEvent]
    | expiredListenAddr a => simp [matchArmOf, specSpecialEvent]
    | listenerClosed a => simp [matchArmOf, specSpecialEvent]
    | listenerError m => simp [matchArmOf, specSpecialEvent]
    | dialing p => simp [matchArmOf, specSpecialEvent]
  · intro h
    cases e <;> try rfl
    case newListenAddr a => simp [matchArmOf] at h
    case behaviour be =>
      cases be with
      | identify i => simp [matchArmOf] at h
      | ping p => simp [matchArmOf] at h
      | mdns me =>
        cases me with
        | discovered ps => simp [matchArmOf] at h
        | expired ps => rfl

/-- C2 witness: a connection-closed event is consumed by the default arm
and dropped with the loop continuing. -/
theorem c2_witness :
    loopBody (SwarmEvent.connectionClosed ⟨[]⟩) = (LoopControl.next, []) :=
  (c2_loop_reacts_to_exactly_four_kinds (SwarmEvent.connectionClosed ⟨[]⟩)).2 rfl

/-- C3: the derived NodeId is a deterministic function of the public
key: deriving it twice from the same public key (of any two keypairs
agreeing on the public key) yields the same identifier. -/
theorem c3_nodeid_derivation_deterministic (k1 k2 : Keypair)
    (h : k1.public = k2.public) :
    PeerId.fromPublicKey k1.public = PeerId.fromPublicKey k2.public := by
  rw [h]

/-- C3 witness: two derivations from the generated keypair of seed 42
agree. -/
theorem c3_witness :
    PeerId.fromPublicKey (Keypair.generate_ed25519 42).public =
      PeerId.fromPublicKey (Keypair.generate_ed25519 42).public :=
  c3_nodeid_derivation_deterministic
    (Keypair.generate_ed25519 42) (Keypair.generate_ed25519 42) rfl

/-- C4 counterexample: with every step fine except signing the noise
static keypair (key generation proceeded, mdns and listen would
succeed), startup aborts via the `.expect` panic — an abort that is
neither a key-generation failure (key generation is infallible in the
source) nor a listen-bind failure. -/
theorem c4_counterexample :
    (mainStartup false true true 0).outcome =
      StartupOutcome.panicked ("signing libp2p-noise static keypair failed") ∧
    (mainStartup false true true 0).outcome ≠ StartupOutcome.started ∧
    (mainStartup false true true 0).outcome ≠ StartupOutcome.failed StartupError.listenBind :=
  ⟨rfl, by decide, by decide⟩

/-- C4 amended: startup reaches the event loop iff noise-config signing,
mdns behaviour creation and listen binding all succeed; a signing
failure aborts by panic, an mdns creation failure and a listen-bind
failure abort by propagating an error; and once the loop is reached no
event — in particular no per-connection error surfaced as an event —
leaves the loop. -/
theorem c4_fatal_startup_characterisation (signingOk mdnsOk listenOk : Bool) (seed : Nat) :
    ((mainStartup signingOk mdnsOk listenOk seed).outcome = StartupOutcome.started ↔
      signingOk = true ∧ mdnsOk = true ∧ listenOk = true) ∧
    (signingOk = false →
      (mainStartup signingOk mdnsOk listenOk seed).outcome =
        StartupOutcome.panicked ("signing libp2p-noise static keypair failed")) ∧
    (signingOk = true → mdnsOk = false →
      (mainStartup signingOk mdnsOk listenOk seed).outcome =
        StartupOutcome.failed StartupError.mdnsCreation) ∧
    (signingOk = true → mdnsOk = true → listenOk = false →
      (mainStartup signingOk mdnsOk listenOk seed).outcome =
        StartupOutcome.failed StartupError.listenBind) ∧
    (∀ e : SwarmEvent, (loopBody e).1 = LoopControl.next) := by
  refine ⟨?_, ?_, ?_, ?_, loopBody_control_next⟩ <;>
    cases signingOk <;> cases mdnsOk <;> cases listenOk <;>
    simp [mainStartup, NoiseConfig.new, localKeyOf, parse_listen_addr]

/-- C4 witness: with signing fine and mdns creation failing, startup
fails with the mdns creation error. -/
theorem c4_witness :
    (mainStartup true false true 0).outcome =
      StartupOutcome.failed StartupError.mdnsCreation :=
  (c4_fatal_startup_characterisation true false true 0).2.2.1 rfl rfl

/-- C5 counterexample: the behaviour's handler set is declared in the
order identify, ping, mdns — not mdns (Discovery) first — and in a poll
cycle where both the identify and the mdns handler are ready, the
dispatcher surfaces the identify event, not the mdns one. -/
theorem c5_counterexample :
    myBehaviourFieldOrder ≠ [Handler.mdns, Handler.identify, Handler.ping] ∧
    dispatchFirstReady bothReady =
      some (MyBehaviourEvent.identify (IdentifyEvent.sent ⟨[1]⟩)) ∧
    dispatchFirstReady bothReady ≠
      some (MyBehaviourEvent.mdns (MdnsEvent.discovered [])) := by
  refine ⟨by decide, by decide, by decide⟩

/-- C5 amended: when more than one handler has a ready event in the same
poll cycle, the tie is broken by iteration order over the behaviour's
field declaration order: Identification (identify) first, then Liveness
(ping), then Discovery (mdns). -/
theorem c5_tie_break_by_field_order (ready : Handler → Option MyBehaviourEvent) :
    (∀ e, ready Handler.identify = some e → dispatchFirstReady ready = some e) ∧
    (ready Handler.identify = none →
      ∀ e, ready Handler.ping = some e → dispatchFirstReady ready = some e) ∧
    (ready Handler.identify = none → ready Handler.ping = none →
      ∀ e, ready Handler.mdns = some e → dispatchFirstReady ready = some e) := by
  refine ⟨?_, ?_, ?_⟩
  · intro e he
    simp [dispatchFirstReady, myBehaviourFieldOrder, List.findSome?_cons, he]
  · intro h1 e he
    simp [dispatchFirstReady, myBehaviourFieldOrder, List.findSome?_cons, h1, he]
  · intro h1 h2 e he
    simp [dispatchFirstReady, myBehaviourFieldOrder, List.findSome?_cons, h1, h2, he]

/-- C5 witness: in the two-ready cycle `bothReady`, the identify event
wins the tie. -/
theorem c5_witness :
    dispatchFirstReady bothReady =
      some (MyBehaviourEvent.identify (IdentifyEvent.sent ⟨[1]⟩)) :=
  (c5_tie_break_by_field_order bothReady).1 (MyBehaviourEvent.identify (IdentifyEvent.sent ⟨[1]⟩)) rfl

/-- C6: a successful authentication upgrade records as the connection's
remote identity exactly the identity derived from the key the peer
proved; if a peer's proven identity does not match the expected one, the
upgrade fails with an authentication error and the connection registry
is left unchanged. -/
theorem c6_recorded_identity_is_proven (hs : HandshakeResult)
    (expected : Option PeerId) (conns : List Connection) :
    (∀ c : Connection, noiseAuthenticate hs expected = Except.ok c →
      ∃ key, hs = HandshakeResult.proven key ∧
        c.remoteIdentity = PeerId.fromPublicKey key) ∧
    (∀ key pid, hs = HandshakeResult.proven key → expected = some pid →
      pid ≠ PeerId.fromPublicKey key →
      noiseAuthenticate hs expected = Except.error UpgradeError.authenticationError ∧
      registerUpgrade (noiseAuthenticate hs expected) conns = conns) := by
  constructor
  · intro c hc
    obtain ⟨ci⟩ := c
    cases hs with
    | failed => simp [noiseAuthenticate] at hc
    | proven key =>
      refine ⟨key, rfl, ?_⟩
      cases expected with
      | none =>
        simp [noiseAuthenticate] at hc
        simp [hc]
      | some pid =>
        by_cases h : pid = PeerId.fromPublicKey key
        · simp [noiseAuthenticate, h] at hc
          simp [hc]
        · simp [noiseAuthenticate, h] at hc
  · intro key pid h1 h2 h3
    subst h1; subst h2
    simp [noiseAuthenticate, registerUpgrade, h3]

/-- C6 witness: a peer proving the all-ones key against an expected
empty identity fails with an authentication error and registers
nothing. -/
theorem c6_witness :
    noiseAuthenticate (HandshakeResult.proven ⟨List.replicate 32 1⟩) (some ⟨[]⟩) =
      Except.error UpgradeError.authenticationError ∧
    registerUpgrade
      (noiseAuthenticate (HandshakeResult.proven ⟨List.replicate 32 1⟩) (some ⟨[]⟩)) [] = [] :=
  (c6_recorded_identity_is_proven
      (HandshakeResult.proven ⟨List.replicate 32 1⟩) (some ⟨[]⟩) []).2
    ⟨List.replicate 32 1⟩ ⟨[]⟩ rfl rfl (by decide)

/-- C7: the listen address literal of `main` parses to the
all-interfaces, ephemeral-port multiaddr; it is a wildcard
specification; it is the only address startup ever passes to
`listen_on`; and a new-listening-address event is reported to the event
consumer with the concrete bound address. -/
theorem c7_wildcard_listen_address :
    Multiaddr.parse ("/ip4/0.0.0.0/tcp/0") = some (Multiaddr.ip4tcp 0 0 0 0 0) ∧
    (Multiaddr.ip4tcp 0 0 0 0 0).isWildcard = true ∧
    (∀ signingOk mdnsOk listenOk : Bool, ∀ seed : Nat,
      ∀ a ∈ (mainStartup signingOk mdnsOk listenOk seed).listenCalls,
        a = Multiaddr.ip4tcp 0 0 0 0 0) ∧
    (∀ a, loopBody (SwarmEvent.newListenAddr a) = (LoopControl.next, [Output.listeningOn a])) := by
  refine ⟨by decide, by decide, ?_, fun a => rfl⟩
  intro signingOk mdnsOk listenOk seed a ha
  cases signingOk <;> cases mdnsOk <;> cases listenOk <;>
    simp [mainStartup, NoiseConfig.new, localKeyOf, parse_listen_addr] at ha <;>
    exact ha

/-- C7 witness: on a fully successful startup, the wildcard address is
among the addresses passed to `listen_on`, and it is the wildcard. -/
theorem c7_witness :
    Multiaddr.ip4tcp 0 0 0 0 0 = Multiaddr.ip4tcp 0 0 0 0 0 :=
  c7_wildcard_listen_address.2.2.1 true true true 0 (Multiaddr.ip4tcp 0 0 0 0 0) (by decide)

/-- C8: the event loop has no internal shutdown trigger: every arm of
the loop body continues, and running the loop over any event sequence
processes every event — appending one more event always extends the run
with that event's reactions, it never cuts the run short. -/
theorem c8_loop_never_halts :
    (∀ e : SwarmEvent, (loopBody e).1 = LoopControl.next) ∧
    (∀ events : List SwarmEvent, ∀ e : SwarmEvent,
      runLoop (events ++ [e]) = runLoop events ++ (loopBody e).2) := by
  refine ⟨loopBody_control_next, ?_⟩
  intro events e
  induction events with
  | nil =>
    have h := loopBody_control_next e
    cases hl : loopBody e with
    | mk c out =>
      rw [hl] at h
      cases c with
      | next => simp [runLoop, hl]
      | halt => simp at h
  | cons x rest ih =>
    have hx := loopBody_control_next x
    cases hl : loopBody x with
    | mk c out =>
      rw [hl] at hx
      cases c with
      | next => simp [runLoop, hl, ih]
      | halt => simp at hx

/-- C9: the identification metadata this node offers carries the fixed
version string "rust-p2p-example/1.0.0" and the node's own public key —
the very key the NodeId was derived from — so the NodeId can be
recomputed from the offered record. -/
theorem c9_identify_record_contents (seed : Nat) :
    (offeredIdentifyInfo (mainIdentifyConfig seed)).agentVersion = "rust-p2p-example/1.0.0" ∧
    (offeredIdentifyInfo (mainIdentifyConfig seed)).publicKey = (localKeyOf seed).public ∧
    PeerId.fromPublicKey (offeredIdentifyInfo (mainIdentifyConfig seed)).publicKey =
      localPeerIdOf seed :=
  ⟨rfl, rfl, rfl⟩

/-- C10: an mdns Discovered event with a list of (peer, address) pairs
produces exactly one peer-discovered report per pair, in list order
(position i of the output reports position i of the list), and an empty
list produces no report while the loop continues. -/
theorem c10_discovered_one_report_per_pair (peers : List (PeerId × Multiaddr)) :
    loopBody (SwarmEvent.behaviour (MyBehaviourEvent.mdns (MdnsEvent.discovered peers))) =
      (LoopControl.next, peers.map (fun pa => Output.discoveredPeer pa.1 pa.2)) ∧
    (∀ i : Nat,
      ((loopBody (SwarmEvent.behaviour (MyBehaviourEvent.mdns (MdnsEvent.discovered peers)))).2)[i]? =
        (peers[i]?).map (fun pa => Output.discoveredPeer pa.1 pa.2)) ∧
    (peers = [] →
      loopBody (SwarmEvent.behaviour (MyBehaviourEvent.mdns (MdnsEvent.discovered peers))) =
        (LoopControl.next, [])) := by
  refine ⟨rfl, ?_, ?_⟩
  · intro i
    simp [loopBody]
  · intro h
    subst h
    rfl

/-- C10 witness: an empty Discovered list yields no report and the loop
continues. -/
theorem c10_witness :
    loopBody (SwarmEvent.behaviour (MyBehaviourEvent.mdns (MdnsEvent.discovered []))) =
      (LoopControl.next, []) :=
  (c10_discovered_one_report_per_pair []).2.2 rfl
